import Mathlib

set_option maxRecDepth 100000

/-!
Verification development for the MoodCanvas core: a shallow embedding of
the mood-analysis, catalog-search, and prompt-composition pipeline, with
theorems settling the behavioural claims about it.

Conventions of the embedding:
* Python strings are Lean `String`; the Python operations `strip`, `lower`,
  slicing and substring containment are embedded as executable functions on
  the underlying character lists (`pyStrip`, `pyLower`, `pySlice`,
  `containsSub`), since they must evaluate in the kernel.
* Python floats are embedded as IEEE-754 binary64 values, each represented
  by its exact value scaled by `2 ^ 1074` (a natural number, since every
  finite nonnegative double is an integer multiple of the smallest
  subnormal). `fadd`, `fmul` and `fdiv` implement round-to-nearest,
  ties-to-even over that representation, so the quota arithmetic of
  `search_tracks` reproduces the double arithmetic of the source bit for
  bit: the left-to-right sum of the weights `[0.4,0.4,0.3,0.2,0.1,0.1]`
  evaluates to 1.5000000000000002, one ulp above 3/2. The query batch
  carries each weight as the exact rational value of its source literal
  and `weightToDouble` converts it to the double of that literal at the
  arithmetic boundary.
* External effects (the language model, the track catalog, image
  generation, HTTP downloads, the random shuffle) are passed in as explicit
  oracle parameters; fallible remote calls return `Except`.
-/

namespace MoodCanvas

/-- Embedding of Python `str.strip` on the character list: drop leading and
trailing whitespace. -/
def stripChars (l : List Char) : List Char :=
  ((l.dropWhile Char.isWhitespace).reverse.dropWhile Char.isWhitespace).reverse

/-- Embedding of Python `str.strip`. -/
def pyStrip (s : String) : String := ⟨stripChars s.data⟩

/-- Embedding of Python `str.lower` (per-character lowering). -/
def pyLower (s : String) : String := ⟨s.data.map Char.toLower⟩

/-- Embedding of the Python slice `s[:n]` on a string. -/
def pySlice (n : Nat) (s : String) : String := ⟨s.data.take n⟩

/-- Embedding of the Python substring test `needle in hay`. -/
def containsSub (hay needle : String) : Bool :=
  decide (needle.data <:+: hay.data)

/-- Python truthiness of an optional string: `None` and the empty string
are falsy. -/
def optFalsy : Option String → Bool
  | none => true
  | some s => s = ""

/-! ## Embedding of `mood_to_music.py` -/

/-- Parsed JSON values, as produced by `json.loads`. -/
inductive Json where
  | str (s : String)
  | num (n : Int)
  | bool (b : Bool)
  | null
  | arr (items : List Json)
  | obj (fields : List (String × Json))

/-- Dictionary lookup on a parsed JSON object. -/
def jlookup (fields : List (String × Json)) (key : String) : Option Json :=
  (fields.find? (fun p => p.1 = key)).map (fun p => p.2)

/-- The distinct exception families `extract_mood_components` can raise:
the explicit `ValueError`s of its schema checks, and the `TypeError` or
`AttributeError` a Python operation raises on an unexpected value shape. -/
inductive ExtractError where
  | schemaValidation (msg : String)
  | typeError
  | attributeError
deriving DecidableEq

/-- The normalized mood dictionary returned by `extract_mood_components`.
The three optional list-valued fields are kept as raw JSON, because the
code slices them without inspecting the elements. -/
structure MoodData where
  emotional_tags : List String
  genres : List String
  playlist_name : String
  energy_level : String
  tempo_feeling : String
  visual_imagery : Json
  movement_quality : String
  color_palette : Json
  search_keywords : Json

/-- Embedding of the list comprehension `[f(tag) for tag in l]` over JSON
values that must be strings; a non-string element raises `AttributeError`
when `strip` is called on it. -/
def mapStrE (f : String → String) : List Json → Except ExtractError (List String)
  | [] => .ok []
  | .str s :: rest => (mapStrE f rest).map (fun tl => f s :: tl)
  | _ :: _ => .error .attributeError

/-- Embedding of the Python slice `v[:n]`: slices lists and strings,
raises `TypeError` on other values. -/
def jsonSlice (n : Nat) : Json → Except ExtractError Json
  | .arr items => .ok (.arr (items.take n))
  | .str s => .ok (.str (pySlice n s))
  | _ => .error .typeError

/-- Embedding of `mood_data.get(key, default).lower()`: the default is a
string literal; a present non-string value raises `AttributeError`. -/
def lowerOfGet (fields : List (String × Json)) (key dflt : String) :
    Except ExtractError String :=
  match jlookup fields key with
  | none => .ok (pyLower dflt)
  | some (.str s) => .ok (pyLower s)
  | some _ => .error .attributeError

/-- Embedding of `mood_data.get(key, "").strip()[:n]`. -/
def stripSliceOfGet (fields : List (String × Json)) (key : String) (n : Nat) :
    Except ExtractError String :=
  match jlookup fields key with
  | none => .ok (pySlice n (pyStrip ""))
  | some (.str s) => .ok (pySlice n (pyStrip s))
  | some _ => .error .attributeError

/-- Embedding of `mood_data.get(key, [])`. -/
def getJsonD (fields : List (String × Json)) (key : String) (dflt : Json) : Json :=
  (jlookup fields key).getD dflt

/-- Embedding of `extract_mood_components` on an already parsed JSON value
(the `json.loads` result). Required-field membership is checked first, in
source order, then types and emptiness, then the normalization steps. On a
non-object value the Python membership test `field not in mood_data` still
runs: it tests element membership on a list, substring containment on a
string, and raises `TypeError` on the remaining scalar values. -/
def extract_mood_components : Json → Except ExtractError MoodData
  | .obj fields =>
    match jlookup fields "emotional_tags", jlookup fields "genres",
          jlookup fields "playlist_name" with
    | none, _, _ => .error (.schemaValidation "Missing required field: emotional_tags")
    | some _, none, _ => .error (.schemaValidation "Missing required field: genres")
    | some _, some _, none => .error (.schemaValidation "Missing required field: playlist_name")
    | some jt, some jg, some jn =>
      match jt with
      | .arr tags =>
        if tags.isEmpty then .error (.schemaValidation "emotional_tags must be a non-empty list")
        else
          match jg with
          | .arr gs =>
            if gs.isEmpty then .error (.schemaValidation "genres must be a non-empty list")
            else
              match jn with
              | .str nm =>
                if pyStrip nm = "" then
                  .error (.schemaValidation "playlist_name must be a non-empty string")
                else do
                  let tags2 ← mapStrE (fun t => pyLower (pyStrip t)) (tags.take 3)
                  let gs2 ← mapStrE (fun g => pyLower (pyStrip g)) (gs.take 3)
                  let el ← lowerOfGet fields "energy_level" "medium"
                  let tf ← lowerOfGet fields "tempo_feeling" "moderate"
                  let vi ← jsonSlice 5 (getJsonD fields "visual_imagery" (.arr []))
                  let mq ← stripSliceOfGet fields "movement_quality" 100
                  let cp ← jsonSlice 3 (getJsonD fields "color_palette" (.arr []))
                  let sk ← jsonSlice 5 (getJsonD fields "search_keywords" (.arr []))
                  .ok ⟨tags2, gs2, pySlice 50 (pyStrip nm), el, tf, vi, mq, cp, sk⟩
              | _ => .error (.schemaValidation "playlist_name must be a non-empty string")
          | _ => .error (.schemaValidation "genres must be a non-empty list")
      | _ => .error (.schemaValidation "emotional_tags must be a non-empty list")
  | .arr items =>
    if items.any (fun j => match j with | .str s => s = "emotional_tags" | _ => false) then
      .error .typeError
    else .error (.schemaValidation "Missing required field: emotional_tags")
  | .str s =>
    if containsSub s "emotional_tags" then .error .typeError
    else .error (.schemaValidation "Missing required field: emotional_tags")
  | _ => .error .typeError

/-- The sparse dictionary returned by `create_fallback_mood_analysis`. -/
structure FallbackData where
  emotional_tags : List String
  genres : List String
  playlist_name : String
deriving DecidableEq

/-- Embedding of `create_fallback_mood_analysis`: four keyword buckets over
the lower-cased mood text, each mapping to a canned triple. -/
def create_fallback_mood_analysis (mood_text : String) : FallbackData :=
  let ml := pyLower mood_text
  if ["calm", "peaceful", "relaxed", "serene"].any (fun w => containsSub ml w) then
    ⟨["calm", "peaceful"], ["ambient", "folk"], "Peaceful Moments"⟩
  else if ["happy", "excited", "energetic", "pumped"].any (fun w => containsSub ml w) then
    ⟨["happy", "energetic"], ["pop", "electronic"], "Energy Boost"⟩
  else if ["sad", "melancholy", "down", "blue"].any (fun w => containsSub ml w) then
    ⟨["melancholic", "reflective"], ["folk", "indie"], "Reflection Time"⟩
  else
    ⟨["contemplative", "mixed"], ["indie", "alternative"], "Mixed Feelings"⟩

/-- Outcome of the single language-model completion call: a transport
error, or a response whose JSON parse either fails (`none`) or yields a
parsed value. -/
inductive LLMResult where
  | transportError
  | response (parsed : Option Json)

/-- The exceptions `analyze_mood` itself raises before reaching the remote
call. -/
inductive AnalyzeError where
  | invalidInput
  | configuration
deriving DecidableEq

/-- `analyze_mood` returns either the full normalized dictionary or the
sparse fallback dictionary; the two have different shapes in the source. -/
inductive AnalysisResult where
  | full (d : MoodData)
  | fallback (f : FallbackData)

/-- Embedding of `analyze_mood`. The second component counts remote
completion calls attempted. The guard order follows the source: empty or
whitespace-only input fails first, then a missing (or empty) API key; any
exception out of the completion call or `extract_mood_components` is
caught and answered with the fallback analysis. -/
def analyze_mood (apiKey : Option String) (mood_text : String) (llm : LLMResult) :
    Except AnalyzeError AnalysisResult × Nat :=
  if mood_text = "" ∨ pyStrip mood_text = "" then (.error .invalidInput, 0)
  else if optFalsy apiKey then (.error .configuration, 0)
  else
    match llm with
    | .transportError => (.ok (.fallback (create_fallback_mood_analysis mood_text)), 1)
    | .response none => (.ok (.fallback (create_fallback_mood_analysis mood_text)), 1)
    | .response (some j) =>
      match extract_mood_components j with
      | .ok d => (.ok (.full d), 1)
      | .error _ => (.ok (.fallback (create_fallback_mood_analysis mood_text)), 1)

/-! ## Embedding of `spotify_client.py` -/

/-- A track record as extracted from one catalog search response item. -/
structure Track where
  name : String
  artist : String
  uri : String
  preview_url : Option String
  external_url : String
deriving DecidableEq

/-- The dictionary `search_tracks` builds per track, which additionally
records the query that produced the track. -/
structure TrackInfo where
  name : String
  artist : String
  uri : String
  preview_url : Option String
  external_url : String
  search_source : String
deriving DecidableEq

/-- One entry of the `search_queries` batch. -/
structure SearchQuery where
  query : String
  weight : ℚ

/-- The `energy_terms` table. -/
def energy_terms (level : String) : Option (List String) :=
  if level = "low" then some ["chill", "ambient", "calm", "peaceful"]
  else if level = "medium" then some ["groovy", "steady", "flowing"]
  else if level = "high" then some ["energetic", "powerful", "intense", "upbeat"]
  else none

/-- The `tempo_terms` table: declared in `search_tracks` but never read
when building queries. -/
def tempo_terms (feeling : String) : Option (List String) :=
  if feeling = "slow" then some ["slow", "downtempo", "ballad"]
  else if feeling = "moderate" then some ["mid-tempo", "groove"]
  else if feeling = "fast" then some ["upbeat", "fast", "energetic"]
  else if feeling = "explosive" then some ["intense", "powerful", "explosive", "high-energy"]
  else none

/-- Embedding of the query-batch construction of `search_tracks`: genre
queries (weight 0.4), then per keyword (first 3) a keyword+primary-genre
query (0.3, only when a genre exists) and a pure keyword query (0.2), then
for a recognized energy level the first 2 terms of its table combined with
the primary genre or the empty string (0.1). The `tempo_feeling` argument
is accepted, as in the source, but never consulted. -/
def search_queries (genres : List String) (search_keywords : List String)
    (energy_level : Option String) (tempo_feeling : Option String) : List SearchQuery :=
  let genreQs := genres.map (fun g => ⟨"genre:" ++ g, mkRat 2 5⟩)
  let kwQs := (search_keywords.take 3).flatMap (fun k =>
    (match genres with
     | g :: _ => [⟨k ++ " genre:" ++ g, mkRat 3 10⟩]
     | [] => []) ++ [⟨k, mkRat 1 5⟩])
  let primary := match genres with
    | g :: _ => g
    | [] => ""
  let energyQs := match energy_level with
    | none => []
    | some lvl =>
      if lvl = "" then []
      else
        match energy_terms lvl with
        | some terms => (terms.take 2).map (fun t => ⟨t ++ " " ++ primary, mkRat 1 10⟩)
        | none => []
  genreQs ++ kwQs ++ energyQs

/-- The exact (real-number) total weight of a batch, as the claimed quota
formula reads it. The source instead sums IEEE doubles; that sum is
`totalWeightD` below. -/
def totalWeight (qs : List SearchQuery) : ℚ := (qs.map (fun q => q.weight)).sum

/-! ### IEEE-754 binary64 arithmetic

A finite nonnegative double is represented by its exact value multiplied
by `2 ^ 1074`: a natural number whose admissible values are exactly the
`m <<< e` with `m < 2 ^ 53`. The three operations the quota computation
uses (`+`, `*`, `/` on nonnegative values, far from overflow) are
implemented with round-to-nearest, ties-to-even. -/

/-- One step of the binary bit-length computation: consume `p` bits if the
accumulated number still has at least `p + 1` bits. -/
def blStep (p : Nat) (acc : Nat × Nat) : Nat × Nat :=
  if (1 <<< p) ≤ acc.1 then (acc.1 >>> p, acc.2 + p) else acc

/-- Number of binary digits of `n` (0 for 0), for numbers below
`2 ^ 4096`. -/
def bitlen (n : Nat) : Nat :=
  if n = 0 then 0
  else
    (blStep 1 (blStep 2 (blStep 4 (blStep 8 (blStep 16 (blStep 32 (blStep 64 (blStep 128
      (blStep 256 (blStep 512 (blStep 1024 (blStep 2048 (n, 0))))))))))))).2 + 1

/-- Round `(q0 + δ) / 2 ^ S` to the nearest integer, ties to even, where
`0 ≤ δ < 1` and `sticky` says whether `δ > 0`. -/
def rneAt (q0 S : Nat) (sticky : Bool) : Nat :=
  let qq := q0 >>> S
  let rr := q0 % (1 <<< S)
  let half := 1 <<< (S - 1)
  if half < rr then qq + 1
  else if rr < half then qq
  else if sticky then qq + 1
  else if qq % 2 = 1 then qq + 1 else qq

/-- Round an exact integer (in the `2 ^ -1074` scale) to 53 significant
bits, to nearest, ties to even. -/
def rne53 (n : Nat) : Nat :=
  let b := bitlen n
  if b ≤ 53 then n
  else (rneAt n (b - 53) false) <<< (b - 53)

/-- Double addition: the scaled sum is exact, then rounded. -/
def fadd (x y : Nat) : Nat := rne53 (x + y)

/-- Double multiplication: the product in the `2 ^ -2148` scale is exact;
round it at the granularity dictated by both the 53-bit significand and
the `2 ^ -1074` representation floor, and rescale. -/
def fmul (x y : Nat) : Nat :=
  let p := x * y
  let S := max 1074 (bitlen p - 53)
  (rneAt p S false) <<< (S - 1074)

/-- Double division (`y = 0` is unreachable in the embedded code: Python
would raise `ZeroDivisionError`, and the quota loop never runs on an
empty batch). 64 guard bits plus a sticky bit make the rounding exact. -/
def fdiv (x y : Nat) : Nat :=
  if y = 0 then 0
  else
    let N := x <<< 1138
    let q0 := N / y
    let sticky := decide (N % y ≠ 0)
    let bi := bitlen (q0 >>> 64)
    let g := if bi ≤ 53 then 0 else bi - 53
    (rneAt q0 (g + 64) sticky) <<< g

/-- The double value of a nonnegative Python int (exact below `2 ^ 53`). -/
def natToDouble (n : Nat) : Nat := (rne53 n) <<< 1074

/-- `int()` on a nonnegative double: truncation toward zero. -/
def pyIntOfDouble (x : Nat) : Nat := x >>> 1074

/-- The double value of a source weight literal: the batch stores the
exact rational value of the literal, and its double is the correctly rounded
quotient of its (small, exactly representable) numerator and denominator —
for 0.4, 0.3, 0.2 and 0.1 this is exactly the double CPython parses. -/
def weightToDouble (w : ℚ) : Nat := fdiv (natToDouble w.num.toNat) (natToDouble w.den)

/-- The total weight summation of `search_tracks` as the
source computes it: a left-to-right fold of double additions starting
from 0, not an exact rational sum. -/
def totalWeightD (qs : List SearchQuery) : Nat :=
  qs.foldl (fun acc q => fadd acc (weightToDouble q.weight)) 0

/-- The per-query execution loop of `search_tracks`. `total` is the double
total weight of the whole batch; each iteration computes
`max(1, int(weight / total * limit))` in IEEE double arithmetic, issues
one catalog call for that many results, and on an exception logs and
skips the query. Returns the concatenated track dictionaries together
with the log of (query, requested-count) catalog calls issued. -/
def run_queries_aux (oracle : String → Nat → Except Unit (List Track)) (total : Nat)
    (limit : Nat) : List SearchQuery → List TrackInfo × List (String × Nat)
  | [] => ([], [])
  | q :: rest =>
    let tracks_needed := max 1 (pyIntOfDouble
      (fmul (fdiv (weightToDouble q.weight) total) (natToDouble limit)))
    let here : List TrackInfo :=
      match oracle q.query tracks_needed with
      | .ok items => items.map (fun t =>
          ⟨t.name, t.artist, t.uri, t.preview_url, t.external_url, q.query⟩)
      | .error _ => []
    let rec_result := run_queries_aux oracle total limit rest
    (here ++ rec_result.1, (q.query, tracks_needed) :: rec_result.2)

/-- Executes the whole batch with the batch total weight. -/
def run_queries (oracle : String → Nat → Except Unit (List Track))
    (qs : List SearchQuery) (limit : Nat) : List TrackInfo × List (String × Nat) :=
  run_queries_aux oracle (totalWeightD qs) limit qs

/-- The duplicate-removal loop of `search_tracks`: a `seen` set of uris,
keeping the first occurrence of each uri. -/
def dedupAux (seen : List String) : List TrackInfo → List TrackInfo
  | [] => []
  | t :: ts =>
    if t.uri ∈ seen then dedupAux seen ts
    else t :: dedupAux (t.uri :: seen) ts

/-- `unique_tracks` as built by `search_tracks`. -/
def dedupByUri (l : List TrackInfo) : List TrackInfo := dedupAux [] l

/-- The exception `search_tracks` and `create_playlist` raise when the
client session is not established. -/
inductive SpotifyError where
  | notAuthenticated
deriving DecidableEq

/-- Embedding of `SpotifyClient.search_tracks`. `sp` is the session
(`None` before `authenticate`), `oracle` the catalog search endpoint, and
`shuffle` the realized permutation of `random.shuffle`. The second
component is the log of catalog calls issued (empty means no network
traffic). -/
def search_tracks (sp : Option Unit) (oracle : String → Nat → Except Unit (List Track))
    (shuffle : List TrackInfo → List TrackInfo) (genres : List String) (limit : Nat)
    (search_keywords : List String) (energy_level tempo_feeling : Option String) :
    Except SpotifyError (List TrackInfo) × List (String × Nat) :=
  match sp with
  | none => (.error .notAuthenticated, [])
  | some _ =>
    let qs := search_queries genres search_keywords energy_level tempo_feeling
    let results := run_queries oracle qs limit
    let unique_tracks := dedupByUri results.1
    (.ok ((shuffle unique_tracks).take limit), results.2)

/-- A created-playlist resource as answered by the catalog service. -/
structure PlaylistObj where
  id : String
  external_url : String

/-- The two write endpoints `create_playlist` uses. -/
structure PlaylistApi where
  user_playlist_create : String → String → Bool → String → Except Unit PlaylistObj
  playlist_add_items : String → List String → Except Unit Unit

/-- The dictionary `create_playlist` returns on success. -/
structure PlaylistResult where
  url : String
  id : String
  embed_url : String
deriving DecidableEq

/-- Embedding of `SpotifyClient.create_playlist`. Raises when the session
or user id is unset; afterwards any endpoint failure is caught and
answered with `None` (`Option.none` inside `Except.ok`). The `Nat`
component counts network calls issued. -/
def create_playlist (sp : Option Unit) (user_id : Option String) (api : PlaylistApi)
    (name : String) (tracks : List String) (mood_prompt : Option String)
    (emotional_tags genres : Option (List String)) :
    Except SpotifyError (Option PlaylistResult) × Nat :=
  if sp.isNone ∨ optFalsy user_id then (.error .notAuthenticated, 0)
  else
    let uid := (user_id.getD "")
    let description_parts := ["Generated by MoodCanvas 🎨"]
      ++ (match mood_prompt with
          | some m => if m = "" then [] else ["Mood: \"" ++ m ++ "\""]
          | none => [])
      ++ (match emotional_tags with
          | some ts => if ts.isEmpty then [] else ["Emotions: " ++ String.intercalate ", " ts]
          | none => [])
      ++ (match genres with
          | some gs => if gs.isEmpty then [] else ["Genres: " ++ String.intercalate ", " gs]
          | none => [])
    let description := String.intercalate " | " description_parts
    match api.user_playlist_create uid name true description with
    | .error _ => (.ok none, 1)
    | .ok playlist =>
      if tracks.isEmpty then
        (.ok (some ⟨playlist.external_url, playlist.id,
          "https://open.spotify.com/embed/playlist/" ++ playlist.id⟩), 1)
      else
        match api.playlist_add_items playlist.id tracks with
        | .ok _ => (.ok (some ⟨playlist.external_url, playlist.id,
            "https://open.spotify.com/embed/playlist/" ++ playlist.id⟩), 2)
        | .error _ => (.ok none, 2)

/-! ## Embedding of `image_generator.py` -/

/-- The apostrophe character used by the prompt templates. -/
def squote : String := "\u0027"

/-- The final length-budget step shared by both prompt composers: when the
assembled prompt exceeds the budget it is cut to the budget and an
ellipsis marker is appended. -/
def truncateWithEllipsis (budget : Nat) (s : String) : String :=
  if s.length > budget then pySlice budget s ++ "..." else s

/-- The `energy_qualities` table of `create_image_prompt`. -/
def energy_qualities (level : String) : Option String :=
  if level = "low" then some "gentle, flowing, peaceful movement"
  else if level = "medium" then some "steady, rhythmic, balanced energy"
  else if level = "high" then some "dynamic, powerful, intense motion"
  else none

/-- The `emotion_colors` table of `create_image_prompt`. -/
def image_emotion_colors (tag : String) : Option String :=
  if tag = "graceful" then some "elegant gold and white tones"
  else if tag = "triumphant" then some "victory gold and electric blue"
  else if tag = "flowing" then some "fluid blues and silvers"
  else if tag = "energetic" then some "vibrant oranges and electric colors"
  else if tag = "calm" then some "soft blues and pearl whites"
  else if tag = "confident" then some "bold golds and deep blues"
  else if tag = "peaceful" then some "gentle greens and soft whites"
  else none

/-- The `genre_styles` table of `create_image_prompt`. -/
def image_genre_styles (genre : String) : Option String :=
  if genre = "electronic" then some "digital art, geometric patterns, futuristic elements"
  else if genre = "pop" then some "vibrant, contemporary, bold graphics"
  else if genre = "folk" then some "organic, natural textures, hand-crafted feel"
  else if genre = "ambient" then some "atmospheric, ethereal, abstract flows"
  else if genre = "rock" then some "dramatic, high contrast, powerful composition"
  else if genre = "classical" then some "elegant, refined, timeless beauty"
  else none

/-- The `emotion_styles` table of `create_image_prompt`. -/
def image_emotion_styles (tag : String) : Option String :=
  if tag = "graceful" then some "fluid, elegant curves, refined composition"
  else if tag = "triumphant" then some "upward movement, victory poses, heroic lighting"
  else if tag = "flowing" then some "smooth gradients, continuous motion lines"
  else if tag = "confident" then some "strong composition, clear focal points"
  else if tag = "energetic" then some "dynamic angles, explosive patterns"
  else none

/-- Embedding of `create_image_prompt`: clause assembly in source order
(core imagery, energy, movement, colors, styles, fixed technical suffix),
joined with period-space, then the 900-character budget step. -/
def create_image_prompt (emotional_tags genres : List String) (mood_text : Option String)
    (visual_imagery : Option (List String)) (movement_quality : Option String)
    (color_palette : Option (List String)) (energy_level : Option String) : String :=
  let vi := visual_imagery.getD []
  let cp := color_palette.getD []
  let mq := movement_quality.getD ""
  let el := match energy_level with
    | some s => if s = "" then "medium" else s
    | none => "medium"
  let emotionCore :=
    "Abstract artwork expressing " ++ String.intercalate ", " (emotional_tags.take 3)
      ++ " emotions"
  let core :=
    if vi.isEmpty then
      match mood_text with
      | some m =>
        if m ≠ "" ∧ m.length < 80 then
          "Abstract visual representation of " ++ squote ++ m ++ squote
        else emotionCore
      | none => emotionCore
    else
      let primary := String.intercalate ", " (vi.take 3)
      match mood_text with
      | some m =>
        if m ≠ "" ∧ m.length < 80 then
          "Dynamic artwork showing " ++ primary ++ ", inspired by " ++ squote ++ m ++ squote
        else "Dynamic artwork featuring " ++ primary
      | none => "Dynamic artwork featuring " ++ primary
  let energyParts := match energy_qualities el with
    | some q => [q]
    | none => []
  let movementParts := if mq ≠ "" then ["with " ++ mq] else []
  let colorParts :=
    if cp.isEmpty then
      match (emotional_tags.take 2).findSome? image_emotion_colors with
      | some c => [c]
      | none => []
    else ["featuring " ++ String.intercalate ", " (cp.take 3) ++ " color palette"]
  let style_elements := (genres.take 2).filterMap image_genre_styles
    ++ (emotional_tags.take 2).filterMap image_emotion_styles
  let styleParts :=
    if style_elements.isEmpty then []
    else [String.intercalate ", " (style_elements.take 2)]
  let prompt_parts := [core] ++ energyParts ++ movementParts ++ colorParts ++ styleParts
    ++ ["digital art, masterpiece quality, highly detailed, artistic composition, no text or words"]
  truncateWithEllipsis 900 (String.intercalate ". " prompt_parts)

/-- Embedding of `generate_mood_image`. `genOutcome` is the image
generation endpoint (prompt to image URL), `download` the HTTP fetch of
the generated asset (status code and body). The base64 transport encoding
of the downloaded body is not modelled: no claim concerns the payload,
only which inputs yield the failed result `none`. The function is total:
every failure path returns `none` instead of propagating. -/
def generate_mood_image (apiKey : Option String)
    (genOutcome : String → Except Unit String)
    (download : String → Except Unit (Nat × String))
    (emotional_tags genres : List String) (mood_text : Option String)
    (visual_imagery : Option (List String)) (movement_quality : Option String)
    (color_palette : Option (List String)) (energy_level : Option String) :
    Option String :=
  if optFalsy apiKey then none
  else
    let prompt := create_image_prompt emotional_tags genres mood_text visual_imagery
      movement_quality color_palette energy_level
    match genOutcome prompt with
    | .error _ => none
    | .ok url =>
      match download url with
      | .error _ => none
      | .ok (status, content) => if status = 200 then some content else none

/-! ## Embedding of `video_generator.py` -/

/-- The `energy_movements` table of `create_video_prompt`. -/
def energy_movements (level : String) : Option String :=
  if level = "low" then some "slow, gentle, flowing camera movements with peaceful transitions"
  else if level = "medium" then some "steady, rhythmic pacing with smooth camera work"
  else if level = "high" then some "dynamic, energetic movement with quick cuts and flowing motion"
  else none

/-- The `emotion_colors` table of `create_video_prompt`. -/
def video_emotion_colors (tag : String) : Option String :=
  if tag = "graceful" then some "elegant gold and soft white tones with warm lighting"
  else if tag = "triumphant" then some "victory gold and electric blue with dramatic lighting"
  else if tag = "flowing" then some "fluid blues and silvers with ethereal lighting"
  else if tag = "energetic" then some "vibrant oranges and electric colors with dynamic lighting"
  else if tag = "calm" then some "soft blues and pearl whites with gentle, diffused lighting"
  else if tag = "confident" then some "bold golds and deep blues with strong, directional lighting"
  else if tag = "peaceful" then some "gentle greens and soft whites with natural lighting"
  else none

/-- The `genre_styles` table of `create_video_prompt`. -/
def video_genre_styles (genre : String) : Option String :=
  if genre = "electronic" then some "futuristic, digital aesthetic with geometric patterns and neon accents"
  else if genre = "pop" then some "vibrant, contemporary style with bold visual elements"
  else if genre = "folk" then some "organic, natural textures with earthy, hand-crafted feel"
  else if genre = "ambient" then some "atmospheric, ethereal with abstract flowing elements"
  else if genre = "rock" then some "dramatic, high contrast with powerful visual composition"
  else if genre = "classical" then some "elegant, refined with timeless, sophisticated visuals"
  else if genre = "jazz" then some "smooth, sophisticated with warm, moody atmosphere"
  else none

/-- Embedding of `create_video_prompt`: clause assembly in source order,
joined with period-space, then the 800-character budget step. Unlike the
image composer, the genre-style loop stops at the first matching genre. -/
def create_video_prompt (emotional_tags genres : List String) (mood_text : Option String)
    (visual_imagery : Option (List String)) (movement_quality : Option String)
    (color_palette : Option (List String)) (energy_level : Option String) : String :=
  let vi := visual_imagery.getD []
  let cp := color_palette.getD []
  let mq := movement_quality.getD ""
  let el := match energy_level with
    | some s => if s = "" then "medium" else s
    | none => "medium"
  let emotionCore :=
    "Flowing cinematic video expressing " ++ String.intercalate ", " (emotional_tags.take 2)
      ++ " emotions"
  let core :=
    match mood_text with
    | some m =>
      if ¬ vi.isEmpty ∧ m ≠ "" then
        let primary := String.intercalate ", " (vi.take 2)
        if m.length < 60 then
          "Cinematic video showing " ++ primary ++ ", embodying the feeling of "
            ++ squote ++ m ++ squote
        else "Cinematic video featuring " ++ primary
      else if m ≠ "" ∧ m.length < 60 then
        "Abstract visual representation of " ++ squote ++ m ++ squote ++ " in motion"
      else emotionCore
    | none => emotionCore
  let energyParts := match energy_movements el with
    | some q => [q]
    | none => []
  let movementParts :=
    if mq ≠ "" then ["featuring " ++ mq ++ " throughout the sequence"] else []
  let colorParts :=
    if cp.isEmpty then
      match (emotional_tags.take 2).findSome? video_emotion_colors with
      | some c => [c]
      | none => []
    else ["with " ++ String.intercalate ", " (cp.take 3)
      ++ " color scheme and complementary lighting"]
  let genreParts := match (genres.take 2).findSome? video_genre_styles with
    | some st => [st]
    | none => []
  let prompt_parts := [core] ++ energyParts ++ movementParts ++ colorParts ++ genreParts
    ++ ["high quality cinematic video, 8 seconds duration, smooth motion, professional cinematography",
        "no text overlays, pure visual storytelling"]
  truncateWithEllipsis 800 (String.intercalate ". " prompt_parts)

/-! ## Statements taken from the specification, for comparison -/

/-- A 900-character filler used to drive the prompt composers over their
length budget. -/
def bigX : String := ⟨List.replicate 900 'x'⟩

/-- The length contract exactly as the claim states it: the image prompt
never exceeds 900 characters and the video prompt never exceeds 800. -/
def ClaimC1 : Prop :=
  ∀ (emotional_tags genres : List String) (mood_text : Option String)
    (visual_imagery : Option (List String)) (movement_quality : Option String)
    (color_palette : Option (List String)) (energy_level : Option String),
    (create_image_prompt emotional_tags genres mood_text visual_imagery
      movement_quality color_palette energy_level).length ≤ 900
    ∧ (create_video_prompt emotional_tags genres mood_text visual_imagery
      movement_quality color_palette energy_level).length ≤ 800

/-- The per-query quota exactly as the claim words it: ordinary rounding
of `weight / Σweights × limit` to the nearest integer, floored at 1. -/
def claimQuotaRound (qs : List SearchQuery) (limit : Nat) (q : SearchQuery) : Nat :=
  max 1 (round (q.weight / totalWeight qs * limit)).toNat

/-- The quota contract exactly as the claim states it: each catalog call
of `search_tracks` requests `max(1, round(weight/Σweights × limit))`
results. -/
def ClaimC2 : Prop :=
  ∀ (oracle : String → Nat → Except Unit (List Track))
    (shuffle : List TrackInfo → List TrackInfo) (g k : List String)
    (e t : Option String) (L : Nat),
    (search_tracks (some ()) oracle shuffle g L k e t).2
      = (search_queries g k e t).map (fun q =>
          (q.query, claimQuotaRound (search_queries g k e t) L q))

/-- The query batch exactly as the claim describes it, built from the
claim wording: genre queries, keyword and keyword+primary-genre queries
for the first 3 keywords, then the first 2 terms of a recognized energy
level combined with the primary genre or the empty string. -/
def claimed_query_batch (genres search_keywords : List String)
    (energy_level : Option String) : List SearchQuery :=
  (genres.map (fun g => ⟨"genre:" ++ g, mkRat 2 5⟩))
  ++ ((search_keywords.take 3).flatMap (fun kw =>
      (match genres.head? with
       | some g0 => [⟨kw ++ " genre:" ++ g0, mkRat 3 10⟩]
       | none => []) ++ [⟨kw, mkRat 1 5⟩]))
  ++ (match energy_level.bind energy_terms with
      | some terms => (terms.take 2).map (fun t =>
          ⟨t ++ " " ++ (genres.head?.getD ""), mkRat 1 10⟩)
      | none => [])

/-- C4 exactly as it is stated: the generated batch is the claimed batch,
and every recognized energy level has a 4-term table. -/
def ClaimC4 : Prop :=
  (∀ (g k : List String) (e t : Option String),
    search_queries g k e t = claimed_query_batch g k e)
  ∧ (∀ lvl : String, lvl = "low" ∨ lvl = "medium" ∨ lvl = "high" →
      ∃ terms, energy_terms lvl = some terms ∧ terms.length = 4)

/-! ## Supporting lemmas -/

theorem length_pySlice (n : Nat) (s : String) : (pySlice n s).length = min n s.length := by
  have h : (pySlice n s).length = (s.data.take n).length := rfl
  rw [h, List.length_take]
  rfl

theorem length_truncateWithEllipsis_le (b : Nat) (s : String) :
    (truncateWithEllipsis b s).length ≤ b + 3 := by
  unfold truncateWithEllipsis
  split
  · rw [String.length_append, length_pySlice]
    have h3 : ("..." : String).length = 3 := rfl
    omega
  · omega

theorem run_queries_aux_log (oracle : String → Nat → Except Unit (List Track))
    (total : Nat) (limit : Nat) (l : List SearchQuery) :
    (run_queries_aux oracle total limit l).2
      = l.map (fun q => (q.query, max 1 (pyIntOfDouble
          (fmul (fdiv (weightToDouble q.weight) total) (natToDouble limit))))) := by
  induction l with
  | nil => rfl
  | cons q rest ih => simp [run_queries_aux, ih]

/-! ## Claim theorems -/

/-- C1 (counterexample): the claimed 900/800-character bounds are violated:
with a 900-character movement-quality string the image composer returns a
903-character prompt and the video composer an 803-character prompt,
because the budget step appends a 3-character ellipsis after cutting to
the budget. -/
theorem prompt_budget_overflow_counterexample : ¬ ClaimC1 := by
  intro h
  have h1 := (h [] [] none none (some bigX) none none).1
  have h2 : (create_image_prompt [] [] none none (some bigX) none none).length = 903 := by
    decide
  omega

/-- C1 (amended): for every mood profile and optional mood text, the image
prompt has length at most 903 characters and the video prompt at most 803:
when the assembled prompt exceeds the 900/800 budget it is cut to the
budget and a 3-character ellipsis marker is appended. -/
theorem prompt_length_le_budget_plus_ellipsis
    (emotional_tags genres : List String) (mood_text : Option String)
    (visual_imagery : Option (List String)) (movement_quality : Option String)
    (color_palette : Option (List String)) (energy_level : Option String) :
    (create_image_prompt emotional_tags genres mood_text visual_imagery
      movement_quality color_palette energy_level).length ≤ 903
    ∧ (create_video_prompt emotional_tags genres mood_text visual_imagery
      movement_quality color_palette energy_level).length ≤ 803 := by
  constructor
  · exact length_truncateWithEllipsis_le 900 _
  · exact length_truncateWithEllipsis_le 800 _

/-- C2 (counterexample): the quota claim with ordinary rounding is false:
for genres `["rock"]`, keywords `["love"]` and limit 4 the quota
expression of the genre query is near 16/9; the code (in double arithmetic) requests
`max(1, int(...)) = 1` result, but the claimed formula gives
`max(1, round(16/9)) = 2`. -/
theorem quota_round_counterexample : ¬ ClaimC2 := by
  intro h
  have hinst := h (fun _ _ => .error ()) id ["rock"] ["love"] none none 4
  rw [show (search_tracks (some ()) (fun _ _ => .error ()) id ["rock"] 4 ["love"] none none).2
      = (run_queries_aux (fun _ _ => .error ())
          (totalWeightD (search_queries ["rock"] ["love"] none none)) 4
          (search_queries ["rock"] ["love"] none none)).2 from rfl,
    run_queries_aux_log] at hinst
  have hhead := congrArg List.head? hinst
  rw [show search_queries ["rock"] ["love"] none none
      = [⟨"genre:rock", mkRat 2 5⟩, ⟨"love genre:rock", mkRat 3 10⟩, ⟨"love", mkRat 1 5⟩]
      from rfl] at hhead
  simp only [List.map_cons, List.head?_cons, claimQuotaRound] at hhead
  have hfl : max 1 (pyIntOfDouble (fmul (fdiv (weightToDouble (mkRat 2 5))
      (totalWeightD [(⟨"genre:rock", mkRat 2 5⟩ : SearchQuery),
        ⟨"love genre:rock", mkRat 3 10⟩, ⟨"love", mkRat 1 5⟩])) (natToDouble 4))) = 1 := by
    decide
  have htot : totalWeight [(⟨"genre:rock", mkRat 2 5⟩ : SearchQuery),
      ⟨"love genre:rock", mkRat 3 10⟩, ⟨"love", mkRat 1 5⟩] = 9/10 := by
    simp only [totalWeight, List.map_cons, List.map_nil, List.sum_cons, List.sum_nil]
    norm_num [Rat.mkRat_eq_div]
  rw [htot] at hhead
  have hval : ((mkRat 2 5 : ℚ)) / ((9 : ℚ)/10) * ((4 : ℕ) : ℚ) = 16/9 := by
    rw [Rat.mkRat_eq_div]
    push_cast
    norm_num
  rw [hval] at hhead
  have hround : round ((16 : ℚ)/9) = 2 := by
    rw [round_eq, Int.floor_eq_iff]
    norm_num
  rw [hround, hfl] at hhead
  simp at hhead

/-- C2 (amended): every catalog call issued by `search_tracks` for query
`q` of the generated batch requests exactly `max(1, int(d))` results,
where `d` is the IEEE double-precision evaluation of
`weight / total_weight * limit` — the weights being the doubles of the
source literals and the total their left-to-right double sum. The
arithmetic is genuinely double precision, not exact: in the batch for
genres rock and pop, keyword love and energy low, the double total is
1.5000000000000002 (one ulp above 3/2), and at limit 10 the weight-0.3
query requests 1 result where exact rational arithmetic would floor to
2. -/
theorem catalog_request_quota_double_trunc :
    (∀ (oracle : String → Nat → Except Unit (List Track))
       (shuffle : List TrackInfo → List TrackInfo) (g k : List String)
       (e t : Option String) (L : Nat),
      (search_tracks (some ()) oracle shuffle g L k e t).2
        = (search_queries g k e t).map (fun q =>
            (q.query, max 1 (pyIntOfDouble (fmul (fdiv (weightToDouble q.weight)
              (totalWeightD (search_queries g k e t))) (natToDouble L))))))
    ∧ totalWeightD (search_queries ["rock", "pop"] ["love"] (some "low") none)
        = ((3 <<< 51) + 1) <<< 1022
    ∧ max 1 (pyIntOfDouble (fmul (fdiv (weightToDouble (mkRat 3 10))
        (totalWeightD (search_queries ["rock", "pop"] ["love"] (some "low") none)))
        (natToDouble 10))) = 1
    ∧ max 1 (Nat.floor ((mkRat 3 10 : ℚ)
        / totalWeight (search_queries ["rock", "pop"] ["love"] (some "low") none)
        * (10 : ℚ))) = 2 := by
  refine ⟨?_, by decide, by decide, ?_⟩
  · intro oracle shuffle g k e t L
    exact run_queries_aux_log oracle (totalWeightD (search_queries g k e t)) L _
  · have htot : totalWeight (search_queries ["rock", "pop"] ["love"] (some "low") none)
        = 3/2 := by
      rw [show search_queries ["rock", "pop"] ["love"] (some "low") none
          = [⟨"genre:rock", mkRat 2 5⟩, ⟨"genre:pop", mkRat 2 5⟩,
             ⟨"love genre:rock", mkRat 3 10⟩, ⟨"love", mkRat 1 5⟩,
             ⟨"chill rock", mkRat 1 10⟩, ⟨"ambient rock", mkRat 1 10⟩] from rfl]
      simp only [totalWeight, List.map_cons, List.map_nil, List.sum_cons, List.sum_nil]
      norm_num [Rat.mkRat_eq_div]
    rw [htot, Rat.mkRat_eq_div,
      show ((3 : ℤ) : ℚ) / ((10 : ℕ) : ℚ) / ((3 : ℚ)/2) * (10 : ℚ) = 2 by norm_num]
    norm_num

/-- C4 (counterexample): the claim asserts a 4-term table for every
recognized energy level, but the `medium` table has exactly 3 terms. -/
theorem query_batch_counterexample : ¬ ClaimC4 := by
  intro h
  obtain ⟨terms, ht, hlen⟩ := h.2 "medium" (Or.inr (Or.inl rfl))
  have : terms = ["groovy", "steady", "flowing"] := by
    have hmed : energy_terms "medium" = some ["groovy", "steady", "flowing"] := rfl
    rw [hmed] at ht
    exact (Option.some_injective _ ht).symm
  rw [this] at hlen
  exact absurd hlen (by decide)

/-- C4 (amended): `search_tracks` generates exactly the claimed query
batch, in the claimed order and with the claimed weights; the energy term
tables have 4 entries for `low` and `high` but 3 for `medium` (the claim
said 4 for every level). -/
theorem query_batch_matches_claimed :
    (∀ (g k : List String) (e t : Option String),
      search_queries g k e t = claimed_query_batch g k e)
    ∧ (energy_terms "low").map List.length = some 4
    ∧ (energy_terms "medium").map List.length = some 3
    ∧ (energy_terms "high").map List.length = some 4 := by
  refine ⟨?_, rfl, rfl, rfl⟩
  intro g k e t
  cases g with
  | nil =>
    cases e with
    | none => simp [search_queries, claimed_query_batch]
    | some lvl =>
      by_cases hl : lvl = ""
      · subst hl
        simp [search_queries, claimed_query_batch,
          show energy_terms "" = none from rfl]
      · simp [search_queries, claimed_query_batch, hl, Option.bind]
  | cons g0 gs =>
    cases e with
    | none => simp [search_queries, claimed_query_batch]
    | some lvl =>
      by_cases hl : lvl = ""
      · subst hl
        simp [search_queries, claimed_query_batch,
          show energy_terms "" = none from rfl]
      · simp [search_queries, claimed_query_batch, hl, Option.bind]

/-- First-occurrence deduplication as the specification words it: keep
each track and drop every later track carrying the same uri. -/
def firstOccurrenceDedup : List TrackInfo → List TrackInfo
  | [] => []
  | t :: ts => t :: firstOccurrenceDedup (ts.filter (fun u => decide (u.uri ≠ t.uri)))
termination_by l => l.length
decreasing_by
  simp_wf
  exact Nat.lt_succ_of_le (List.length_filter_le _ _)

theorem dedupAux_uri_nodup (l : List TrackInfo) : ∀ seen : List String,
    ((dedupAux seen l).map TrackInfo.uri).Nodup
    ∧ ∀ u ∈ (dedupAux seen l).map TrackInfo.uri, u ∉ seen := by
  induction l with
  | nil => intro seen; simp [dedupAux]
  | cons t ts ih =>
    intro seen
    by_cases h : t.uri ∈ seen
    · simpa [dedupAux, h] using ih seen
    · obtain ⟨hnodup, hnotin⟩ := ih (t.uri :: seen)
      refine ⟨?_, ?_⟩
      · simp only [dedupAux, if_neg h, List.map_cons, List.nodup_cons]
        refine ⟨fun hmem => ?_, hnodup⟩
        exact (hnotin _ hmem) (List.mem_cons_self _ _)
      · intro u hu
        simp only [dedupAux, if_neg h, List.map_cons, List.mem_cons] at hu
        rcases hu with hu | hu
        · rw [hu]; exact h
        · exact fun hs => (hnotin u hu) (List.mem_cons_of_mem _ hs)

theorem dedupByUri_uri_nodup (l : List TrackInfo) :
    ((dedupByUri l).map TrackInfo.uri).Nodup :=
  (dedupAux_uri_nodup l []).1

theorem dedupAux_eq_filter_firstOcc (l : List TrackInfo) : ∀ seen : List String,
    dedupAux seen l = firstOccurrenceDedup (l.filter (fun u => decide (u.uri ∉ seen))) := by
  induction l with
  | nil => intro seen; simp [dedupAux, firstOccurrenceDedup]
  | cons t ts ih =>
    intro seen
    by_cases h : t.uri ∈ seen
    · have hp : decide (t.uri ∉ seen) = false := by simp [h]
      rw [dedupAux, if_pos h, List.filter_cons, hp]
      simpa using ih seen
    · have hp : decide (t.uri ∉ seen) = true := by simp [h]
      rw [dedupAux, if_neg h, List.filter_cons, hp, if_pos rfl, firstOccurrenceDedup,
        ih (t.uri :: seen), List.filter_filter]
      congr 1
      congr 1
      apply List.filter_congr
      intro a _
      simp [List.mem_cons, not_or, Bool.and_comm]

theorem dedupByUri_eq_firstOcc (l : List TrackInfo) :
    dedupByUri l = firstOccurrenceDedup l := by
  have h := dedupAux_eq_filter_firstOcc l []
  simpa [dedupByUri, List.not_mem_nil] using h

/-- C3 (confirmed): with an established session, `search_tracks` returns
(without error) the first `limit` entries of a shuffled permutation of the
first-occurrence uri-deduplication of the concatenated per-query results;
the result carries no duplicate uri, has length at most `limit`, and when
the deduplicated pool is smaller than `limit` the whole pool is returned
(up to the shuffle permutation). -/
theorem search_tracks_dedup_shuffle_truncate
    (oracle : String → Nat → Except Unit (List Track))
    (shuffle : List TrackInfo → List TrackInfo) (g : List String) (L : Nat)
    (k : List String) (e t : Option String) (pool uniq : List TrackInfo)
    (hpool : pool = (run_queries oracle (search_queries g k e t) L).1)
    (huniq : uniq = dedupByUri pool)
    (hs : List.Perm (shuffle uniq) uniq) :
    (search_tracks (some ()) oracle shuffle g L k e t).1 = .ok ((shuffle uniq).take L)
    ∧ (((shuffle uniq).take L).map TrackInfo.uri).Nodup
    ∧ ((shuffle uniq).take L).length ≤ L
    ∧ uniq = firstOccurrenceDedup pool
    ∧ (uniq.length < L → List.Perm ((shuffle uniq).take L) uniq) := by
  subst hpool
  subst huniq
  refine ⟨rfl, ?_, ?_, dedupByUri_eq_firstOcc _, ?_⟩
  · have h1 := dedupByUri_uri_nodup (run_queries oracle (search_queries g k e t) L).1
    have h2 := (hs.map TrackInfo.uri).nodup_iff.mpr h1
    rw [List.map_take]
    exact (List.take_sublist _ _).nodup h2
  · exact List.length_take_le _ _
  · intro hlt
    have hlen := hs.length_eq
    rw [List.take_of_length_le (by omega)]
    exact hs

/-- A concrete catalog oracle answering every query with the same track
twice, used to instantiate the `search_tracks` post-processing theorem. -/
def wOracle : String → Nat → Except Unit (List Track) := fun _ _ =>
  .ok [⟨"Song A", "Artist", "uri:a", none, "x"⟩, ⟨"Song A", "Artist", "uri:a", none, "x"⟩]

theorem search_tracks_dedup_shuffle_truncate_witness :
    (search_tracks (some ()) wOracle id ["rock"] 2 [] none none).1
      = .ok ((id (dedupByUri (run_queries wOracle (search_queries ["rock"] [] none none) 2).1)).take 2)
    ∧ (((id (dedupByUri (run_queries wOracle (search_queries ["rock"] [] none none) 2).1)).take 2).map
        TrackInfo.uri).Nodup
    ∧ ((id (dedupByUri (run_queries wOracle (search_queries ["rock"] [] none none) 2).1)).take 2).length ≤ 2
    ∧ dedupByUri (run_queries wOracle (search_queries ["rock"] [] none none) 2).1
        = firstOccurrenceDedup (run_queries wOracle (search_queries ["rock"] [] none none) 2).1
    ∧ ((dedupByUri (run_queries wOracle (search_queries ["rock"] [] none none) 2).1).length < 2 →
        List.Perm
          ((id (dedupByUri (run_queries wOracle (search_queries ["rock"] [] none none) 2).1)).take 2)
          (dedupByUri (run_queries wOracle (search_queries ["rock"] [] none none) 2).1)) :=
  search_tracks_dedup_shuffle_truncate wOracle id ["rock"] 2 [] none none _ _ rfl rfl
    (List.Perm.refl _)

/-- C8 (confirmed): with no established session, `search_tracks` and
`create_playlist` fail with the not-authenticated error and issue no
network calls (their call logs and counters are empty). -/
theorem unauthenticated_calls_fail_without_network
    (oracle : String → Nat → Except Unit (List Track))
    (shuffle : List TrackInfo → List TrackInfo) (g : List String) (L : Nat)
    (k : List String) (e t : Option String) (uid : Option String)
    (api : PlaylistApi) (name : String) (tracks : List String)
    (mood_prompt : Option String) (tags gens : Option (List String)) :
    search_tracks none oracle shuffle g L k e t = (.error .notAuthenticated, [])
    ∧ create_playlist none uid api name tracks mood_prompt tags gens
        = (.error .notAuthenticated, 0) := by
  constructor
  · rfl
  · simp [create_playlist]

/-- C10 (confirmed): `tempo_feeling` has no effect: two `search_tracks`
calls identical except for `tempo_feeling` produce the same query batch,
the same result and the same catalog call log; the `tempo_terms` table is
declared but never consulted. -/
theorem tempo_feeling_noninterference (sp : Option Unit)
    (oracle : String → Nat → Except Unit (List Track))
    (shuffle : List TrackInfo → List TrackInfo) (g : List String) (L : Nat)
    (k : List String) (e : Option String) (t1 t2 : Option String) :
    search_tracks sp oracle shuffle g L k e t1 = search_tracks sp oracle shuffle g L k e t2
    ∧ search_queries g k e t1 = search_queries g k e t2 :=
  ⟨rfl, rfl⟩

/-- The failure modes caught by the `try` of `analyze_mood`: a transport
error of the completion call, a malformed-JSON response, or any exception
out of `extract_mood_components`. -/
def llm_failed : LLMResult → Prop
  | .transportError => True
  | .response none => True
  | .response (some j) => ∃ e, extract_mood_components j = .error e

/-- C5 (confirmed): with a usable API key and non-empty mood text, any
model, transport or validation failure makes `analyze_mood` return the
fallback heuristic result for the text, without raising; and any mood text
containing the word `calm` gets the fixed calm-bucket triple. -/
theorem analyze_mood_fallback_on_failure (key mood : String) (llm : LLMResult)
    (hkey : key ≠ "") (hmood : pyStrip mood ≠ "") (hfail : llm_failed llm) :
    (analyze_mood (some key) mood llm).1
      = .ok (.fallback (create_fallback_mood_analysis mood))
    ∧ ("calm".data <:+: mood.data →
        create_fallback_mood_analysis mood
          = ⟨["calm", "peaceful"], ["ambient", "folk"], "Peaceful Moments"⟩) := by
  constructor
  · have hguard : ¬ (mood = "" ∨ pyStrip mood = "") := by
      rintro (h | h)
      · apply hmood
        rw [h]
        rfl
      · exact hmood h
    have hkey2 : optFalsy (some key) = false := by simp [optFalsy, hkey]
    cases llm with
    | transportError => simp [analyze_mood, hguard, hkey2]
    | response p =>
      cases p with
      | none => simp [analyze_mood, hguard, hkey2]
      | some j =>
        obtain ⟨e, he⟩ := hfail
        simp [analyze_mood, hguard, hkey2, he]
  · intro hcalm
    have hlow : "calm".data <:+: (pyLower mood).data := by
      have h2 := List.IsInfix.map Char.toLower hcalm
      have h3 : "calm".data.map Char.toLower = "calm".data := by decide
      rw [h3] at h2
      exact h2
    have hc : containsSub (pyLower mood) "calm" = true := decide_eq_true hlow
    simp [create_fallback_mood_analysis, hc]

theorem analyze_mood_fallback_on_failure_witness :
    (analyze_mood (some "key") "calm" .transportError).1
      = .ok (.fallback ⟨["calm", "peaceful"], ["ambient", "folk"], "Peaceful Moments"⟩) := by
  have h := analyze_mood_fallback_on_failure "key" "calm" .transportError
    (by decide) (by decide) True.intro
  rw [h.1, h.2 (by decide)]

/-- C7 (confirmed): `analyze_mood` fails with the invalid-input error on
empty or whitespace-only mood text, before any remote call (the call
counter stays 0, whatever the model would answer); and with the
configuration error on non-empty text when no API credential is set. -/
theorem analyze_mood_input_and_config_errors (mood : String) (key : Option String)
    (llm : LLMResult) :
    ((mood = "" ∨ pyStrip mood = "") →
      analyze_mood key mood llm = (.error .invalidInput, 0))
    ∧ (pyStrip mood ≠ "" →
      analyze_mood none mood llm = (.error .configuration, 0)) := by
  constructor
  · intro h
    unfold analyze_mood
    rw [if_pos h]
  · intro h
    have hguard : ¬ (mood = "" ∨ pyStrip mood = "") := by
      rintro (h1 | h1)
      · apply h
        rw [h1]
        rfl
      · exact h h1
    unfold analyze_mood
    rw [if_neg hguard]
    rfl

theorem analyze_mood_input_and_config_errors_witness :
    analyze_mood (some "key") "" .transportError = (.error .invalidInput, 0)
    ∧ analyze_mood none "mood" .transportError = (.error .configuration, 0) :=
  ⟨(analyze_mood_input_and_config_errors "" (some "key") .transportError).1 (Or.inl rfl),
   (analyze_mood_input_and_config_errors "mood" none .transportError).2 (by decide)⟩

/-- C9 (confirmed): `generate_mood_image` is a total function that answers
the failed result `none` instead of propagating an exception on a missing
or empty API credential, on a transport error during generation, on a
transport error during the download, and on a non-success HTTP status of
the download. -/
theorem generate_mood_image_fails_softly (key : Option String)
    (genOutcome : String → Except Unit String)
    (download : String → Except Unit (Nat × String)) (tags gens : List String)
    (mt : Option String) (vi : Option (List String)) (mq : Option String)
    (cp : Option (List String)) (el : Option String) :
    (optFalsy key = true →
      generate_mood_image key genOutcome download tags gens mt vi mq cp el = none)
    ∧ (optFalsy key = false →
      genOutcome (create_image_prompt tags gens mt vi mq cp el) = .error () →
      generate_mood_image key genOutcome download tags gens mt vi mq cp el = none)
    ∧ (∀ url, optFalsy key = false →
      genOutcome (create_image_prompt tags gens mt vi mq cp el) = .ok url →
      download url = .error () →
      generate_mood_image key genOutcome download tags gens mt vi mq cp el = none)
    ∧ (∀ url status content, optFalsy key = false →
      genOutcome (create_image_prompt tags gens mt vi mq cp el) = .ok url →
      download url = .ok (status, content) → status ≠ 200 →
      generate_mood_image key genOutcome download tags gens mt vi mq cp el = none) := by
  refine ⟨?_, ?_, ?_, ?_⟩
  · intro h
    simp [generate_mood_image, h]
  · intro h hg
    simp [generate_mood_image, h, hg]
  · intro url h hg hd
    simp [generate_mood_image, h, hg, hd]
  · intro url status content h hg hd hst
    simp [generate_mood_image, h, hg, hd, hst]

theorem generate_mood_image_fails_softly_witness :
    generate_mood_image none (fun _ => .ok "url") (fun _ => .ok (200, "c"))
      [] [] none none none none none = none
    ∧ generate_mood_image (some "k") (fun _ => .error ()) (fun _ => .ok (200, "c"))
      [] [] none none none none none = none
    ∧ generate_mood_image (some "k") (fun _ => .ok "url") (fun _ => .error ())
      [] [] none none none none none = none
    ∧ generate_mood_image (some "k") (fun _ => .ok "url") (fun _ => .ok (404, "c"))
      [] [] none none none none none = none :=
  ⟨(generate_mood_image_fails_softly none (fun _ => .ok "url") (fun _ => .ok (200, "c"))
      [] [] none none none none none).1 rfl,
   (generate_mood_image_fails_softly (some "k") (fun _ => .error ()) (fun _ => .ok (200, "c"))
      [] [] none none none none none).2.1 rfl rfl,
   (generate_mood_image_fails_softly (some "k") (fun _ => .ok "url") (fun _ => .error ())
      [] [] none none none none none).2.2.1 "url" rfl rfl rfl,
   (generate_mood_image_fails_softly (some "k") (fun _ => .ok "url") (fun _ => .ok (404, "c"))
      [] [] none none none none none).2.2.2 "url" 404 "c" rfl rfl rfl (by decide)⟩

/-- A required-field violation in the sense of the claim: one of the three
required fields is missing, of the wrong type (non-list for the tag and
genre lists, non-string for the name), or empty. -/
def requiredFieldProblem (fields : List (String × Json)) : Prop :=
  jlookup fields "emotional_tags" = none ∨
  jlookup fields "genres" = none ∨
  jlookup fields "playlist_name" = none ∨
  (∃ j, jlookup fields "emotional_tags" = some j ∧ ∀ l, j ≠ .arr l) ∨
  jlookup fields "emotional_tags" = some (.arr []) ∨
  (∃ j, jlookup fields "genres" = some j ∧ ∀ l, j ≠ .arr l) ∨
  jlookup fields "genres" = some (.arr []) ∨
  (∃ j, jlookup fields "playlist_name" = some j ∧ ∀ s, j ≠ .str s) ∨
  (∃ s, jlookup fields "playlist_name" = some (.str s) ∧ pyStrip s = "")

/-- Recognizer for the schema-validation (`ValueError`) outcome. -/
def isSchemaError : Except ExtractError MoodData → Bool
  | .error (.schemaValidation _) => true
  | _ => false

theorem isSchemaError_iff (r : Except ExtractError MoodData) :
    isSchemaError r = true ↔ ∃ msg, r = .error (.schemaValidation msg) := by
  cases r with
  | ok d => simp [isSchemaError]
  | error e => cases e <;> simp [isSchemaError]

theorem mapStrE_map_str (f : String → String) (l : List String) :
    mapStrE f (l.map Json.str) = .ok (l.map f) := by
  induction l with
  | nil => rfl
  | cons a as ih => simp [mapStrE, ih, Except.map]

theorem lowerOfGet_of_opt (fields : List (String × Json)) (key dflt : String)
    (o : Option String) (h : jlookup fields key = o.map Json.str) :
    lowerOfGet fields key dflt = .ok (pyLower (o.getD dflt)) := by
  cases o <;> simp [lowerOfGet, h]

theorem stripSliceOfGet_of_opt (fields : List (String × Json)) (key : String) (n : Nat)
    (o : Option String) (h : jlookup fields key = o.map Json.str) :
    stripSliceOfGet fields key n = .ok (pySlice n (pyStrip (o.getD ""))) := by
  cases o <;> simp [stripSliceOfGet, h]

theorem jsonSlice_getJsonD_of_opt (fields : List (String × Json)) (key : String) (n : Nat)
    (o : Option (List Json)) (h : jlookup fields key = o.map Json.arr) :
    jsonSlice n (getJsonD fields key (.arr [])) = .ok (.arr ((o.getD []).take n)) := by
  cases o <;> simp [jsonSlice, getJsonD, h]

theorem extract_schema_error_of_problem (fields : List (String × Json))
    (hprob : requiredFieldProblem fields) :
    isSchemaError (extract_mood_components (.obj fields)) = true := by
  simp only [extract_mood_components]
  repeat' first
    | rfl
    | split
  all_goals exfalso
  all_goals
    rcases hprob with h | h | h | ⟨j, hj, hne⟩ | h | ⟨j, hj, hne⟩ | h | ⟨j, hj, hne⟩ |
      ⟨s, hs1, hs2⟩ <;>
    simp_all

/-- C6 (confirmed): on a parsed JSON object whose required fields are a
non-empty list of strings (`emotional_tags`, `genres`) and a non-empty
string (`playlist_name`), and whose optional fields, when present, carry
their schema type, `extract_mood_components` returns the normalized
dictionary: tags and genres clamped to the first 3 entries, each trimmed
and lower-cased; the name trimmed and cut to 50 characters; the stated
defaults (`medium`, `moderate`) and caps (5/100/3/5) for the optional
fields. And whenever a required field is missing, of the wrong type, or
empty, it fails with a schema-validation (`ValueError`) error. -/
theorem extract_normalization_and_schema_errors :
    (∀ (fields : List (String × Json)) (tagsS gsS : List String) (nm : String)
       (elOpt tfOpt mqOpt : Option String) (viOpt cpOpt skOpt : Option (List Json)),
       jlookup fields "emotional_tags" = some (.arr (tagsS.map Json.str)) →
       tagsS ≠ [] →
       jlookup fields "genres" = some (.arr (gsS.map Json.str)) →
       gsS ≠ [] →
       jlookup fields "playlist_name" = some (.str nm) →
       pyStrip nm ≠ "" →
       jlookup fields "energy_level" = elOpt.map Json.str →
       jlookup fields "tempo_feeling" = tfOpt.map Json.str →
       jlookup fields "movement_quality" = mqOpt.map Json.str →
       jlookup fields "visual_imagery" = viOpt.map Json.arr →
       jlookup fields "color_palette" = cpOpt.map Json.arr →
       jlookup fields "search_keywords" = skOpt.map Json.arr →
       extract_mood_components (.obj fields) = .ok
         ⟨(tagsS.take 3).map (fun t => pyLower (pyStrip t)),
          (gsS.take 3).map (fun g => pyLower (pyStrip g)),
          pySlice 50 (pyStrip nm),
          pyLower (elOpt.getD "medium"),
          pyLower (tfOpt.getD "moderate"),
          .arr ((viOpt.getD []).take 5),
          pySlice 100 (pyStrip (mqOpt.getD "")),
          .arr ((cpOpt.getD []).take 3),
          .arr ((skOpt.getD []).take 5)⟩)
    ∧ (∀ fields : List (String × Json), requiredFieldProblem fields →
        ∃ msg, extract_mood_components (.obj fields) = .error (.schemaValidation msg)) := by
  constructor
  · intro fields tagsS gsS nm elOpt tfOpt mqOpt viOpt cpOpt skOpt
      h1 h2 h3 h4 h5 h6 h7 h8 h9 h10 h11 h12
    have hne1 : ¬ ((tagsS.map Json.str).isEmpty = true) := by
      cases tagsS with
      | nil => exact absurd rfl h2
      | cons a as => simp
    have hne2 : ¬ ((gsS.map Json.str).isEmpty = true) := by
      cases gsS with
      | nil => exact absurd rfl h4
      | cons a as => simp
    simp only [extract_mood_components, h1, h3, h5]
    rw [if_neg hne1, if_neg hne2, if_neg h6,
      show (tagsS.map Json.str).take 3 = (tagsS.take 3).map Json.str from
        (List.map_take Json.str tagsS 3).symm,
      show (gsS.map Json.str).take 3 = (gsS.take 3).map Json.str from
        (List.map_take Json.str gsS 3).symm,
      mapStrE_map_str, mapStrE_map_str,
      lowerOfGet_of_opt fields "energy_level" "medium" elOpt h7,
      lowerOfGet_of_opt fields "tempo_feeling" "moderate" tfOpt h8,
      stripSliceOfGet_of_opt fields "movement_quality" 100 mqOpt h9,
      jsonSlice_getJsonD_of_opt fields "visual_imagery" 5 viOpt h10,
      jsonSlice_getJsonD_of_opt fields "color_palette" 3 cpOpt h11,
      jsonSlice_getJsonD_of_opt fields "search_keywords" 5 skOpt h12]
    rfl
  · intro fields hprob
    exact (isSchemaError_iff _).1 (extract_schema_error_of_problem fields hprob)

theorem extract_normalization_and_schema_errors_witness :
    extract_mood_components (.obj [("emotional_tags", .arr [.str " Happy "]),
        ("genres", .arr [.str "Pop"]), ("playlist_name", .str " My List ")])
      = .ok
        ⟨([" Happy "].take 3).map (fun t => pyLower (pyStrip t)),
         (["Pop"].take 3).map (fun g => pyLower (pyStrip g)),
         pySlice 50 (pyStrip " My List "),
         pyLower ((none : Option String).getD "medium"),
         pyLower ((none : Option String).getD "moderate"),
         .arr (((none : Option (List Json)).getD []).take 5),
         pySlice 100 (pyStrip ((none : Option String).getD "")),
         .arr (((none : Option (List Json)).getD []).take 3),
         .arr (((none : Option (List Json)).getD []).take 5)⟩
    ∧ ∃ msg, extract_mood_components (.obj ([] : List (String × Json)))
        = .error (.schemaValidation msg) :=
  ⟨extract_normalization_and_schema_errors.1
      [("emotional_tags", .arr [.str " Happy "]), ("genres", .arr [.str "Pop"]),
       ("playlist_name", .str " My List ")]
      [" Happy "] ["Pop"] " My List " none none none none none none
      rfl (by decide) rfl (by decide) rfl (by decide) rfl rfl rfl rfl rfl rfl,
   extract_normalization_and_schema_errors.2 [] (Or.inl rfl)⟩

end MoodCanvas
